import Mathlib

/-!
Shallow embedding of the ETL pipeline in src/etl.py.

The pipeline reads a song catalog and an activity log (JSON records), and
derives five tables: songs, artists (from the catalog), users, times and
songplays (from the activity log, the last by joining against the persisted
songs/artists tables).  Dataframes are modelled as Lists of rows, the
engine's sort / dropDuplicates / filter / join as list operations, and the
persisted output directory as a Store of optional tables (None = the dataset
was never written, and reading it fails).
-/

namespace Etl

/-- Input song-catalog record (one JSON object per file), src data model. -/
structure SongRecord where
  song_id : String
  title : String
  artist_id : String
  artist_name : String
  artist_location : Option String
  artist_latitude : Option Rat
  artist_longitude : Option Rat
  year : Int
  duration : Rat
deriving DecidableEq

/-- Input activity-log event (one JSON object per line).  Fields that can be
null in the log (names, gender, song/artist/length of non-play rows, etc.)
are Options; an engine equality comparison against null is never true. -/
structure ActivityEvent where
  page : String
  ts : Int
  userId : String
  firstName : Option String
  lastName : Option String
  gender : Option String
  level : String
  sessionId : Int
  location : Option String
  userAgent : Option String
  song : Option String
  artist : Option String
  length : Option Rat
deriving DecidableEq

/-- Row of the songs dimension table (etl.py lines 64-66). -/
structure SongRow where
  song_id : String
  title : String
  artist_id : String
  year : Int
  duration : Rat
deriving DecidableEq

/-- Row of the artists dimension table (etl.py lines 80-86). -/
structure ArtistRow where
  artist_id : String
  name : String
  location : Option String
  latitude : Option Rat
  longitude : Option Rat
deriving DecidableEq

/-- Row of the users dimension table (etl.py lines 120-126). -/
structure UserRow where
  user_id : String
  first_name : Option String
  last_name : Option String
  gender : Option String
  level : String
deriving DecidableEq

/-- Row of the time dimension table (etl.py lines 140-148).  start_time is
the timestamp as rational epoch seconds (millisecond precision). -/
structure TimeRow where
  start_time : Rat
  hour : Int
  day : Int
  week : Int
  month : Int
  year : Int
  weekday : String
deriving DecidableEq

/-- Row of the songplays fact table (etl.py lines 166-185). -/
structure SongplayRow where
  start_time : Rat
  user_id : String
  level : String
  song_id : String
  artist_id : String
  session_id : Int
  location : Option String
  user_agent : Option String
  year : Int
  month : Int
deriving DecidableEq

/-! ## Engine primitives

dropDuplicates with a key subset keeps the first row per key value in the
dataframe order; dropDuplicates with no argument is the special case where
the key is the whole row.  sort('ts', ascending=False) orders rows by ts
descending (order among equal ts values is engine-defined; we model it with
an insertion sort, any ts-descending order satisfies the same contract). -/

/-- dropDuplicates(keys): keep the first occurrence of each key value. -/
def dedupBy {α κ : Type} [DecidableEq κ] (key : α → κ) : List α → List α
  | [] => []
  | x :: xs => x :: (dedupBy key xs).filter (fun y => key y ≠ key x)

/-- Insert x into a list kept in ts-descending order. -/
def insertDescBy {α : Type} (ts : α → Int) (x : α) : List α → List α
  | [] => [x]
  | y :: ys => if ts y ≤ ts x then x :: y :: ys else y :: insertDescBy ts x ys

/-- sort by ts descending (insertion sort). -/
def sortDescBy {α : Type} (ts : α → Int) : List α → List α
  | [] => []
  | x :: xs => insertDescBy ts x (sortDescBy ts xs)

/-! ## Calendar model of the engine timestamp functions

The udf on line 136 turns ts (epoch milliseconds) into a timestamp of
ts / 1000.0 epoch seconds; F.hour / F.dayofmonth / F.weekofyear / F.month /
F.year / date_format(_, 'E') then derive calendar fields from that
timestamp.  We model the proleptic Gregorian calendar on integer epoch
days with the standard civil-calendar arithmetic, and the ISO-8601 week
numbering used by weekofyear. -/

/-- A civil (proleptic Gregorian) calendar date. -/
structure CivilDate where
  year : Int
  month : Int
  day : Int
deriving DecidableEq

/-- Civil date of an epoch day number (days since 1970-01-01). -/
def civilFromDays (z : Int) : CivilDate :=
  let z2 := z + 719468
  let era := Int.fdiv z2 146097
  let doe := z2 - era * 146097
  let yoe := Int.fdiv (doe - Int.fdiv doe 1460 + Int.fdiv doe 36524 - Int.fdiv doe 146096) 365
  let y := yoe + era * 400
  let doy := doe - (365 * yoe + Int.fdiv yoe 4 - Int.fdiv yoe 100)
  let mp := Int.fdiv (5 * doy + 2) 153
  let d := doy - Int.fdiv (153 * mp + 2) 5 + 1
  let m := mp + (if mp < 10 then 3 else -9)
  ⟨y + (if m ≤ 2 then 1 else 0), m, d⟩

/-- Epoch day number of a civil date (inverse of civilFromDays). -/
def daysFromCivil (y m d : Int) : Int :=
  let y2 := y - (if m ≤ 2 then 1 else 0)
  let era := Int.fdiv y2 400
  let yoe := y2 - era * 400
  let mp := Int.fmod (m + 9) 12
  let doy := Int.fdiv (153 * mp + 2) 5 + d - 1
  let doe := yoe * 365 + Int.fdiv yoe 4 - Int.fdiv yoe 100 + doy
  era * 146097 + doe - 719468

/-- ISO weekday of an epoch day, 1 = Monday .. 7 = Sunday. -/
def isoWeekday (z : Int) : Int := Int.fmod (z + 3) 7 + 1

/-- Number of ISO weeks (52 or 53) in a year. -/
def isoWeekCount (y : Int) : Int :=
  let p := fun (x : Int) => Int.fmod (x + Int.fdiv x 4 - Int.fdiv x 100 + Int.fdiv x 400) 7
  52 + (if p y = 4 ∨ p (y - 1) = 3 then 1 else 0)

/-- ISO-8601 week number of an epoch day (the engine's weekofyear). -/
def weekOfYear (z : Int) : Int :=
  let c := civilFromDays z
  let doy := z - daysFromCivil c.year 1 1 + 1
  let w := Int.fdiv (doy - isoWeekday z + 10) 7
  if w < 1 then isoWeekCount (c.year - 1)
  else if w > isoWeekCount c.year then 1
  else w

/-- Abbreviated weekday name of an epoch day (date_format pattern E). -/
def weekdayAbbrev (z : Int) : String :=
  let w := isoWeekday z
  if w = 1 then "Mon" else if w = 2 then "Tue" else if w = 3 then "Wed"
  else if w = 4 then "Thu" else if w = 5 then "Fri" else if w = 6 then "Sat"
  else "Sun"

/-- Whole epoch seconds of an event timestamp: floor of ts / 1000.0. -/
def epochSecOfTs (ts : Int) : Int := Int.fdiv ts 1000

/-- Epoch day containing an epoch second. -/
def epochDayOfSec (s : Int) : Int := Int.fdiv s 86400

/-- Hour of day of an epoch second (the engine's F.hour). -/
def hourOfSec (s : Int) : Int := Int.fdiv (Int.fmod s 86400) 3600

/-! ## Song catalog transform (process_song_data, etl.py lines 44-96) -/

/-- Projection of a catalog record onto the songs-table columns. -/
def songProj (r : SongRecord) : SongRow :=
  ⟨r.song_id, r.title, r.artist_id, r.year, r.duration⟩

/-- Projection of a catalog record onto the artists-table columns. -/
def artistProj (r : SongRecord) : ArtistRow :=
  ⟨r.artist_id, r.artist_name, r.artist_location, r.artist_latitude, r.artist_longitude⟩

/-- songs_table: select the five columns, dropDuplicates() (full row). -/
def songs_table (catalog : List SongRecord) : List SongRow :=
  dedupBy (fun r => r) (catalog.map songProj)

/-- artists_table: select the five columns, dropDuplicates() (full row). -/
def artists_table (catalog : List SongRecord) : List ArtistRow :=
  dedupBy (fun r => r) (catalog.map artistProj)

/-! ## Activity log transforms (process_log_data, etl.py lines 98-196) -/

/-- Line 117: keep only NextSong events. -/
def filterNextSong (events : List ActivityEvent) : List ActivityEvent :=
  events.filter (fun e => e.page = "NextSong")

/-- Projection of an event onto the users-table columns (lines 120-125). -/
def userRowOf (e : ActivityEvent) : UserRow :=
  ⟨e.userId, e.firstName, e.lastName, e.gender, e.level⟩

/-- The dropDuplicates key of the users table (line 126). -/
def userKey (r : UserRow) : String × Option String × Option String × Option String :=
  (r.user_id, r.first_name, r.last_name, r.gender)

/-- The users-table key of an event. -/
def eventKey (e : ActivityEvent) : String × Option String × Option String × Option String :=
  (e.userId, e.firstName, e.lastName, e.gender)

/-- users_table: sort by ts descending, project, dropDuplicates on the
identity key (lines 120-126). -/
def users_table (events : List ActivityEvent) : List UserRow :=
  dedupBy userKey ((sortDescBy ActivityEvent.ts (filterNextSong events)).map userRowOf)

/-- One time-table row per filtered event (lines 136-148): start_time is
ts / 1000.0 epoch seconds, calendar fields are derived from it. -/
def timeRowOf (e : ActivityEvent) : TimeRow :=
  let s := epochSecOfTs e.ts
  let z := epochDayOfSec s
  ⟨(e.ts : Rat) / 1000, hourOfSec s, (civilFromDays z).day, weekOfYear z,
   (civilFromDays z).month, (civilFromDays z).year, weekdayAbbrev z⟩

/-- time_table: one row per filtered event, no deduplication. -/
def time_table (events : List ActivityEvent) : List TimeRow :=
  (filterNextSong events).map timeRowOf

/-- The songplays projection of a joined (event, artist, song) triple
(lines 174-185). -/
def songplayRowOf (e : ActivityEvent) (a : ArtistRow) (s : SongRow) : SongplayRow :=
  let sec := epochSecOfTs e.ts
  let z := epochDayOfSec sec
  ⟨(e.ts : Rat) / 1000, e.userId, e.level, s.song_id, a.artist_id, e.sessionId,
   e.location, e.userAgent, (civilFromDays z).year, (civilFromDays z).month⟩

/-- All fact rows one event contributes: the inner join with artists on
event.artist == artist.name, then with songs on artist_id equality,
event.song == song.title and event.length == song.duration (lines 166-173).
A null event field never equals a table value. -/
def songplayRowsOfEvent (e : ActivityEvent) (songs : List SongRow)
    (artists : List ArtistRow) : List SongplayRow :=
  (artists.filter (fun a => e.artist = some a.name)).flatMap (fun a =>
    (songs.filter (fun s =>
      a.artist_id = s.artist_id ∧ e.song = some s.title ∧ e.length = some s.duration)).map
      (fun s => songplayRowOf e a s))

/-- songplays_table, built from the filtered events and the re-read
songs/artists tables. -/
def songplays_table (events : List ActivityEvent) (songs : List SongRow)
    (artists : List ArtistRow) : List SongplayRow :=
  (filterNextSong events).flatMap (fun e => songplayRowsOfEvent e songs artists)

/-! ## Input locator (etl.py lines 51-58 and 104-111)

The remote branch lists the bucket keys under the dataset prefix and keeps
the .json ones; the local branch is a glob with the same zero-match
behaviour (no matching file, nothing read).  Reading n source objects
concatenates their records; reading zero source objects yields the empty
table (section 4.1 contract of the collaborating engine). -/

/-- Bucket-listing prefix test on the character list of a key. -/
def strHasPre (pre k : String) : Bool := pre.data.isPrefixOf k.data

/-- The .json suffix test of the locator on the character list of a key. -/
def strHasSuf (suf k : String) : Bool := suf.data.isSuffixOf k.data

/-- Keys selected for the song catalog (prefix song_data, suffix .json). -/
def locateSongKeys (keys : List String) : List String :=
  keys.filter (fun k => strHasPre "song_data" k && strHasSuf ".json" k)

/-- Keys selected for the activity log (prefix log_data, suffix .json). -/
def locateLogKeys (keys : List String) : List String :=
  keys.filter (fun k => strHasPre "log_data" k && strHasSuf ".json" k)

/-- Load the catalog: concatenation of the records of each located key. -/
def loadSongs (keys : List String) (content : String → List SongRecord) :
    List SongRecord :=
  (locateSongKeys keys).flatMap content

/-- Load the activity log likewise. -/
def loadLogs (keys : List String) (content : String → List ActivityEvent) :
    List ActivityEvent :=
  (locateLogKeys keys).flatMap content

/-! ## Persisted output and the two pipeline stages

The output directory holds up to five datasets; a write with overwrite mode
replaces a dataset wholesale, a read of a dataset that was never written
fails (the engine raises a path-does-not-exist analysis error, which
etl.py does not catch: it aborts the run). -/

/-- The persisted output datasets (None = never written). -/
structure Store where
  songs : Option (List SongRow)
  artists : Option (List ArtistRow)
  users : Option (List UserRow)
  times : Option (List TimeRow)
  songplays : Option (List SongplayRow)
deriving DecidableEq

/-- Re-read the persisted songs table (etl.py line 162): fails when the
dataset does not exist. -/
def readSongs (st : Store) : Except String (List SongRow) :=
  match st.songs with
  | some t => Except.ok t
  | none => Except.error "Path does not exist: songs"

/-- Re-read the persisted artists table (etl.py line 163). -/
def readArtists (st : Store) : Except String (List ArtistRow) :=
  match st.artists with
  | some t => Except.ok t
  | none => Except.error "Path does not exist: artists"

/-- process_song_data: derive and overwrite the songs and artists tables. -/
def process_song_data (catalog : List SongRecord) (st : Store) : Store :=
  { st with songs := some (songs_table catalog),
            artists := some (artists_table catalog) }

/-- process_log_data: overwrite users and times, then re-read the persisted
songs/artists tables and derive and overwrite songplays.  A failed read
aborts the stage (the exception propagates out of etl.py). -/
def process_log_data (events : List ActivityEvent) (st : Store) :
    Except String Store :=
  let st1 := { st with users := some (users_table events),
                       times := some (time_table events) }
  match readSongs st1 with
  | Except.error msg => Except.error msg
  | Except.ok songs =>
    match readArtists st1 with
    | Except.error msg => Except.error msg
    | Except.ok artists =>
      Except.ok { st1 with songplays := some (songplays_table events songs artists) }

/-- main: run the two stages in order against one output store. -/
def runPipeline (catalog : List SongRecord) (events : List ActivityEvent)
    (st : Store) : Except String Store :=
  process_log_data events (process_song_data catalog st)

/-- main, from the raw input listing: locate, load, then run both stages. -/
def runPipelineFromKeys (songKeys : List String)
    (songContent : String → List SongRecord) (logKeys : List String)
    (logContent : String → List ActivityEvent) (st : Store) :
    Except String Store :=
  runPipeline (loadSongs songKeys songContent) (loadLogs logKeys logContent) st

/-! ## Sample inputs used by the witnesses -/

/-- Sample events: user 1 plays at ts 1000 on the free tier and at ts 2000
on the paid tier. -/
def wEv1 : ActivityEvent :=
  ⟨"NextSong", 1000, "1", some "A", some "B", some "F", "free", 10,
   some "NY", some "agent", some "Song A", some "Artist X", some 200⟩

/-- Second sample event, same identity, later and paid. -/
def wEv2 : ActivityEvent :=
  ⟨"NextSong", 2000, "1", some "A", some "B", some "F", "paid", 11,
   some "NY", some "agent", some "Song A", some "Artist X", some 200⟩

/-- The users-table row kept for the sample events. -/
def wRowPaid : UserRow := ⟨"1", some "A", some "B", some "F", "paid"⟩

/-- Sample catalog record (scenario A of the spec). -/
def wSong1 : SongRecord :=
  ⟨"S1", "Song A", "AR1", "Artist X", some "LA", some 10, some 20, 2000, 200⟩

/-- Same projected songs-table row as wSong1, different location fields. -/
def wSong2 : SongRecord :=
  ⟨"S1", "Song A", "AR1", "Artist X", none, none, none, 2000, 200⟩

/-- A NextSong event whose artist field is null. -/
def wEvNull : ActivityEvent :=
  ⟨"NextSong", 3000, "1", some "A", some "B", some "F", "paid", 12,
   some "NY", some "agent", some "Song A", none, some 200⟩

/-- The store of a directory nothing was ever written to. -/
def wEmptyStore : Store := ⟨none, none, none, none, none⟩

/-! ## Lemmas about the engine primitives -/

theorem dedupBy_subset {α κ : Type} [DecidableEq κ] (key : α → κ) (l : List α) :
    ∀ x ∈ dedupBy key l, x ∈ l := by
  induction l with
  | nil => simp [dedupBy]
  | cons a xs ih =>
    intro x hx
    rcases List.mem_cons.mp hx with rfl | h
    · exact List.mem_cons_self x xs
    · exact List.mem_cons_of_mem a (ih x (List.mem_of_mem_filter h))

theorem exists_mem_dedupBy {α κ : Type} [DecidableEq κ] (key : α → κ) (l : List α)
    (x : α) (hx : x ∈ l) : ∃ y ∈ dedupBy key l, key y = key x := by
  induction l with
  | nil => cases hx
  | cons a xs ih =>
    rcases List.mem_cons.mp hx with rfl | h
    · exact ⟨x, List.mem_cons_self x _, rfl⟩
    · rcases ih h with ⟨y, hy, hk⟩
      by_cases hya : key y = key a
      · exact ⟨a, List.mem_cons_self a _, by rw [← hya, hk]⟩
      · refine ⟨y, ?_, hk⟩
        simp only [dedupBy, List.mem_cons, List.mem_filter]
        exact Or.inr ⟨hy, by simpa using hya⟩

theorem dedupBy_pairwise_keys {α κ : Type} [DecidableEq κ] (key : α → κ) (l : List α) :
    (dedupBy key l).Pairwise (fun a b => key a ≠ key b) := by
  induction l with
  | nil => simp [dedupBy]
  | cons a xs ih =>
    simp only [dedupBy]
    refine List.Pairwise.cons ?_ (ih.filter _)
    intro y hy
    have hne := (List.mem_filter.mp hy).2
    simp only [decide_eq_true_eq] at hne
    exact fun h => hne h.symm

theorem dedupBy_max {α κ : Type} [DecidableEq κ] (key : α → κ) (ts : α → Int)
    (l : List α) (hs : l.Pairwise (fun a b => ts b ≤ ts a)) :
    ∀ x ∈ dedupBy key l, x ∈ l ∧ ∀ y ∈ l, key y = key x → ts y ≤ ts x := by
  induction l with
  | nil => intro x hx; cases hx
  | cons a xs ih =>
    intro x hx
    rcases List.pairwise_cons.mp hs with ⟨ha, hxs⟩
    rcases List.mem_cons.mp hx with rfl | h
    · refine ⟨List.mem_cons_self x xs, ?_⟩
      intro y hy hk
      rcases List.mem_cons.mp hy with rfl | hy2
      · exact le_refl _
      · exact ha y hy2
    · have hfil := List.mem_filter.mp h
      have hkxa : key x ≠ key a := by simpa using hfil.2
      rcases ih hxs x hfil.1 with ⟨hxl, hmax⟩
      refine ⟨List.mem_cons_of_mem a hxl, ?_⟩
      intro y hy hk
      rcases List.mem_cons.mp hy with rfl | hy2
      · exact absurd hk.symm hkxa
      · exact hmax y hy2 hk

theorem dedupBy_map {α β κ : Type} [DecidableEq κ] (key : β → κ) (f : α → β)
    (l : List α) :
    dedupBy key (l.map f) = (dedupBy (fun a => key (f a)) l).map f := by
  induction l with
  | nil => rfl
  | cons a xs ih =>
    simp only [List.map_cons, dedupBy, ih]
    rw [List.filter_map]
    rfl

theorem insertDescBy_perm {α : Type} (ts : α → Int) (x : α) (l : List α) :
    List.Perm (insertDescBy ts x l) (x :: l) := by
  induction l with
  | nil => simp [insertDescBy]
  | cons y ys ih =>
    simp only [insertDescBy]
    by_cases h : ts y ≤ ts x
    · rw [if_pos h]
    · rw [if_neg h]
      exact (List.Perm.cons y ih).trans (List.Perm.swap x y ys)

theorem sortDescBy_perm {α : Type} (ts : α → Int) (l : List α) :
    List.Perm (sortDescBy ts l) l := by
  induction l with
  | nil => simp [sortDescBy]
  | cons x xs ih =>
    simp only [sortDescBy]
    exact (insertDescBy_perm ts x _).trans (List.Perm.cons x ih)

theorem insertDescBy_pairwise {α : Type} (ts : α → Int) (x : α) (l : List α)
    (h : l.Pairwise (fun a b => ts b ≤ ts a)) :
    (insertDescBy ts x l).Pairwise (fun a b => ts b ≤ ts a) := by
  induction l with
  | nil => simp [insertDescBy]
  | cons y ys ih =>
    rcases List.pairwise_cons.mp h with ⟨hy, hys⟩
    simp only [insertDescBy]
    by_cases hle : ts y ≤ ts x
    · rw [if_pos hle]
      refine List.Pairwise.cons ?_ h
      intro z hz
      rcases List.mem_cons.mp hz with rfl | hz2
      · exact hle
      · exact le_trans (hy z hz2) hle
    · rw [if_neg hle]
      refine List.Pairwise.cons ?_ (ih hys)
      intro z hz
      have hz3 : z = x ∨ z ∈ ys := by
        simpa using (insertDescBy_perm ts x ys).mem_iff.mp hz
      rcases hz3 with rfl | hz2
      · exact le_of_not_le hle
      · exact hy z hz2

theorem sortDescBy_pairwise {α : Type} (ts : α → Int) (l : List α) :
    (sortDescBy ts l).Pairwise (fun a b => ts b ≤ ts a) := by
  induction l with
  | nil => simp [sortDescBy]
  | cons x xs ih => exact insertDescBy_pairwise ts x _ ih

theorem mem_filterNextSong (events : List ActivityEvent) (e : ActivityEvent) :
    e ∈ filterNextSong events ↔ e ∈ events ∧ e.page = "NextSong" := by
  simp [filterNextSong, List.mem_filter]

/-- Shared shape of a users-table row: it is the projection of the first
event (in ts-descending order) of its identity-key class. -/
theorem users_mem_spec (events : List ActivityEvent) (row : UserRow)
    (h : row ∈ users_table events) :
    ∃ e, e ∈ filterNextSong events ∧ userRowOf e = row ∧
      ∀ e2 ∈ filterNextSong events, eventKey e2 = eventKey e → e2.ts ≤ e.ts := by
  unfold users_table at h
  rw [dedupBy_map] at h
  rcases List.mem_map.mp h with ⟨e, he, hfe⟩
  have hpair := sortDescBy_pairwise ActivityEvent.ts (filterNextSong events)
  rcases dedupBy_max (fun a => userKey (userRowOf a)) ActivityEvent.ts _ hpair e he with
    ⟨hmem, hmaxall⟩
  refine ⟨e, (sortDescBy_perm _ _).mem_iff.mp hmem, hfe, ?_⟩
  intro e2 he2 hk
  exact hmaxall e2 ((sortDescBy_perm _ _).mem_iff.mpr he2) hk

/-- C1: every users-table row carries the level of a chronologically-latest
(maximum ts) filtered NextSong event sharing the row's identity tuple: the
row is the projection of an event e whose ts is at least the ts of every
filtered event with the same (user_id, first_name, last_name, gender) key. -/
theorem users_level_latest (events : List ActivityEvent) (row : UserRow)
    (h : row ∈ users_table events) :
    ∃ e, e ∈ events ∧ e.page = "NextSong" ∧ userRowOf e = row ∧ row.level = e.level ∧
      ∀ e2 ∈ events, e2.page = "NextSong" → eventKey e2 = eventKey e → e2.ts ≤ e.ts := by
  rcases users_mem_spec events row h with ⟨e, he, hfe, hmax⟩
  rcases (mem_filterNextSong events e).mp he with ⟨he1, he2⟩
  cases hfe
  refine ⟨e, he1, he2, rfl, rfl, ?_⟩
  intro e2 hm hp hk
  exact hmax e2 ((mem_filterNextSong events e2).mpr ⟨hm, hp⟩) hk

/-- Witness for C1 at the two sample events: the kept row is the paid one. -/
theorem users_level_latest_witness :
    ∃ e, e ∈ [wEv1, wEv2] ∧ e.page = "NextSong" ∧ userRowOf e = wRowPaid ∧
      wRowPaid.level = e.level ∧
      ∀ e2 ∈ [wEv1, wEv2], e2.page = "NextSong" → eventKey e2 = eventKey e →
        e2.ts ≤ e.ts :=
  users_level_latest [wEv1, wEv2] wRowPaid (by decide)

/-- C9: every users-table row is the projection of one single filtered
NextSong event: all five of its fields come from that same event. -/
theorem users_row_from_single_event (events : List ActivityEvent) (row : UserRow)
    (h : row ∈ users_table events) :
    ∃ e, e ∈ events ∧ e.page = "NextSong" ∧ row.user_id = e.userId ∧
      row.first_name = e.firstName ∧ row.last_name = e.lastName ∧
      row.gender = e.gender ∧ row.level = e.level := by
  rcases users_mem_spec events row h with ⟨e, he, hfe, -⟩
  rcases (mem_filterNextSong events e).mp he with ⟨he1, he2⟩
  cases hfe
  exact ⟨e, he1, he2, rfl, rfl, rfl, rfl, rfl⟩

/-- Witness for C9 at the two sample events. -/
theorem users_row_from_single_event_witness :
    ∃ e, e ∈ [wEv1, wEv2] ∧ e.page = "NextSong" ∧ wRowPaid.user_id = e.userId ∧
      wRowPaid.first_name = e.firstName ∧ wRowPaid.last_name = e.lastName ∧
      wRowPaid.gender = e.gender ∧ wRowPaid.level = e.level :=
  users_row_from_single_event [wEv1, wEv2] wRowPaid (by decide)

/-- Membership in the fact rows of one event: exactly the joined
(artist, song) pairs satisfying the three join conditions. -/
theorem mem_songplayRowsOfEvent (e : ActivityEvent) (songs : List SongRow)
    (artists : List ArtistRow) (row : SongplayRow) :
    row ∈ songplayRowsOfEvent e songs artists ↔
      ∃ a ∈ artists, ∃ s ∈ songs, e.artist = some a.name ∧
        a.artist_id = s.artist_id ∧ e.song = some s.title ∧
        e.length = some s.duration ∧ row = songplayRowOf e a s := by
  constructor
  · intro h
    rcases List.mem_flatMap.mp h with ⟨a, ha, hmap⟩
    rcases List.mem_filter.mp ha with ⟨haA, hacond⟩
    rcases List.mem_map.mp hmap with ⟨s, hs, hrow⟩
    rcases List.mem_filter.mp hs with ⟨hsS, hscond⟩
    simp only [decide_eq_true_eq] at hacond hscond
    exact ⟨a, haA, s, hsS, hacond, hscond.1, hscond.2.1, hscond.2.2, hrow.symm⟩
  · rintro ⟨a, haA, s, hsS, h1, h2, h3, h4, rfl⟩
    apply List.mem_flatMap.mpr
    refine ⟨a, List.mem_filter.mpr ⟨haA, by simpa using h1⟩, ?_⟩
    exact List.mem_map.mpr ⟨s, List.mem_filter.mpr ⟨hsS, by simp [h2, h3, h4]⟩, rfl⟩

/-- C2: every songplays row comes from a filtered event whose
(artist, song, length) triple exactly equals the (name, title, duration)
of an artists-row/songs-row pair with agreeing artist_id; and an event
matching no such pair contributes zero fact rows (the derivation is total,
so no error is possible). -/
theorem songplays_rows_matched (events : List ActivityEvent) (songs : List SongRow)
    (artists : List ArtistRow) :
    (∀ row ∈ songplays_table events songs artists,
      ∃ e a s, e ∈ events ∧ e.page = "NextSong" ∧ a ∈ artists ∧ s ∈ songs ∧
        e.artist = some a.name ∧ a.artist_id = s.artist_id ∧
        e.song = some s.title ∧ e.length = some s.duration ∧
        row = songplayRowOf e a s) ∧
    (∀ e ∈ events,
      (∀ a ∈ artists, ∀ s ∈ songs,
        ¬(e.artist = some a.name ∧ a.artist_id = s.artist_id ∧
          e.song = some s.title ∧ e.length = some s.duration)) →
      songplayRowsOfEvent e songs artists = []) := by
  constructor
  · intro row hrow
    rcases List.mem_flatMap.mp hrow with ⟨e, he, hin⟩
    rcases (mem_filterNextSong events e).mp he with ⟨he1, he2⟩
    rcases (mem_songplayRowsOfEvent e songs artists row).mp hin with
      ⟨a, haA, s, hsS, h1, h2, h3, h4, hr⟩
    exact ⟨e, a, s, he1, he2, haA, hsS, h1, h2, h3, h4, hr⟩
  · intro e _ hno
    apply List.eq_nil_iff_forall_not_mem.mpr
    intro row hrow
    rcases (mem_songplayRowsOfEvent e songs artists row).mp hrow with
      ⟨a, haA, s, hsS, h1, h2, h3, h4, -⟩
    exact hno a haA s hsS ⟨h1, h2, h3, h4⟩

/-- Witness for C2: the sample event matches the sample artist and song,
so its fact row is justified by that joined pair. -/
theorem songplays_rows_matched_witness :
    ∃ e a s, e ∈ [wEv2] ∧ e.page = "NextSong" ∧ a ∈ [artistProj wSong1] ∧
      s ∈ [songProj wSong1] ∧ e.artist = some a.name ∧
      a.artist_id = s.artist_id ∧ e.song = some s.title ∧
      e.length = some s.duration ∧
      songplayRowOf wEv2 (artistProj wSong1) (songProj wSong1) =
        songplayRowOf e a s :=
  (songplays_rows_matched [wEv2] [songProj wSong1] [artistProj wSong1]).1
    (songplayRowOf wEv2 (artistProj wSong1) (songProj wSong1))
    (by simp [songplays_table, songplayRowsOfEvent, filterNextSong, wEv2,
      wSong1, artistProj, songProj])

/-- C10: an event with a null artist, song or length satisfies no join
condition, so it contributes zero fact rows (and the derivation is total:
no error is raised). -/
theorem songplays_null_field_no_rows (e : ActivityEvent) (songs : List SongRow)
    (artists : List ArtistRow)
    (h : e.artist = none ∨ e.song = none ∨ e.length = none) :
    songplayRowsOfEvent e songs artists = [] := by
  apply List.eq_nil_iff_forall_not_mem.mpr
  intro row hrow
  rcases (mem_songplayRowsOfEvent e songs artists row).mp hrow with
    ⟨a, -, s, -, h1, -, h3, h4, -⟩
  rcases h with hn | hn | hn
  · rw [hn] at h1; exact Option.noConfusion h1
  · rw [hn] at h3; exact Option.noConfusion h3
  · rw [hn] at h4; exact Option.noConfusion h4

/-- Witness for C10: the null-artist event yields no fact row against the
sample tables. -/
theorem songplays_null_field_no_rows_witness :
    songplayRowsOfEvent wEvNull [songProj wSong1] [artistProj wSong1] = [] :=
  songplays_null_field_no_rows wEvNull [songProj wSong1] [artistProj wSong1]
    (Or.inl rfl)

/-- C3: any catalog record's projected (song_id, title, artist_id, year,
duration) combination occurs exactly once in the songs table, in particular
when two input records share the whole projected row. -/
theorem songs_table_unique (catalog : List SongRecord) (r1 r2 : SongRecord)
    (h1 : r1 ∈ catalog) (_h2 : r2 ∈ catalog)
    (_heq : songProj r1 = songProj r2) :
    (songs_table catalog).count (songProj r1) = 1 := by
  have hnodup : (songs_table catalog).Nodup :=
    dedupBy_pairwise_keys (fun r => r) (catalog.map songProj)
  have hmem : songProj r1 ∈ songs_table catalog := by
    rcases exists_mem_dedupBy (fun r => r) (catalog.map songProj) (songProj r1)
      (List.mem_map_of_mem songProj h1) with ⟨y, hy, hk⟩
    exact hk ▸ hy
  exact List.count_eq_one_of_mem hnodup hmem

/-- Witness for C3: two catalog records with the same projected row give a
songs table holding that row exactly once. -/
theorem songs_table_unique_witness :
    (songs_table [wSong1, wSong2]).count (songProj wSong1) = 1 :=
  songs_table_unique [wSong1, wSong2] wSong1 wSong2 (by decide) (by decide)
    (by decide)

/-- C7: the artists table drops exact full-row duplicates only: its rows
are exactly the distinct projections of catalog records, so two records
with the same artist_id but different location fields both keep a row,
and those two rows share the artist_id. -/
theorem artists_table_fullrow_dedup (catalog : List SongRecord)
    (r1 r2 : SongRecord) (h1 : r1 ∈ catalog) (h2 : r2 ∈ catalog)
    (hid : r1.artist_id = r2.artist_id) (hne : artistProj r1 ≠ artistProj r2) :
    (∀ x, x ∈ artists_table catalog ↔ ∃ r ∈ catalog, artistProj r = x) ∧
    (artists_table catalog).Nodup ∧
    artistProj r1 ∈ artists_table catalog ∧
    artistProj r2 ∈ artists_table catalog ∧
    artistProj r1 ≠ artistProj r2 ∧
    (artistProj r1).artist_id = (artistProj r2).artist_id := by
  have hmemiff : ∀ x, x ∈ artists_table catalog ↔ ∃ r ∈ catalog, artistProj r = x := by
    intro x
    constructor
    · intro hx
      rcases List.mem_map.mp (dedupBy_subset (fun r => r) _ x hx) with ⟨r, hr, hrx⟩
      exact ⟨r, hr, hrx⟩
    · rintro ⟨r, hr, rfl⟩
      rcases exists_mem_dedupBy (fun a => a) (catalog.map artistProj) (artistProj r)
        (List.mem_map_of_mem artistProj hr) with ⟨y, hy, hk⟩
      exact hk ▸ hy
  refine ⟨hmemiff, dedupBy_pairwise_keys (fun r => r) _, (hmemiff _).mpr ⟨r1, h1, rfl⟩,
    (hmemiff _).mpr ⟨r2, h2, rfl⟩, hne, hid⟩

/-- Witness for C7 at the two sample records sharing AR1 but differing in
the location columns. -/
theorem artists_table_fullrow_dedup_witness :
    (∀ x, x ∈ artists_table [wSong1, wSong2] ↔
      ∃ r ∈ [wSong1, wSong2], artistProj r = x) ∧
    (artists_table [wSong1, wSong2]).Nodup ∧
    artistProj wSong1 ∈ artists_table [wSong1, wSong2] ∧
    artistProj wSong2 ∈ artists_table [wSong1, wSong2] ∧
    artistProj wSong1 ≠ artistProj wSong2 ∧
    (artistProj wSong1).artist_id = (artistProj wSong2).artist_id :=
  artists_table_fullrow_dedup [wSong1, wSong2] wSong1 wSong2 (by decide)
    (by decide) (by decide) (by decide)

/-- C4: every time-table row's start_time is the event's ts divided by 1000
as epoch seconds, and its hour, day, ISO week, month, year and abbreviated
weekday name are the calendar fields of that start_time. -/
theorem time_fields_consistent (events : List ActivityEvent) (row : TimeRow)
    (h : row ∈ time_table events) :
    ∃ e, e ∈ events ∧ e.page = "NextSong" ∧
      row.start_time = (e.ts : Rat) / 1000 ∧
      row.hour = hourOfSec (epochSecOfTs e.ts) ∧
      row.day = (civilFromDays (epochDayOfSec (epochSecOfTs e.ts))).day ∧
      row.week = weekOfYear (epochDayOfSec (epochSecOfTs e.ts)) ∧
      row.month = (civilFromDays (epochDayOfSec (epochSecOfTs e.ts))).month ∧
      row.year = (civilFromDays (epochDayOfSec (epochSecOfTs e.ts))).year ∧
      row.weekday = weekdayAbbrev (epochDayOfSec (epochSecOfTs e.ts)) := by
  unfold time_table at h
  rcases List.mem_map.mp h with ⟨e, he, hrow⟩
  rcases (mem_filterNextSong events e).mp he with ⟨he1, he2⟩
  cases hrow
  exact ⟨e, he1, he2, rfl, rfl, rfl, rfl, rfl, rfl, rfl⟩

/-- Witness for C4 at the later sample event (ts 2000 ms, so start_time 2
epoch seconds on 1970-01-01, a Thursday in ISO week 1). -/
theorem time_fields_consistent_witness :
    ∃ e, e ∈ [wEv2] ∧ e.page = "NextSong" ∧
      (timeRowOf wEv2).start_time = (e.ts : Rat) / 1000 ∧
      (timeRowOf wEv2).hour = hourOfSec (epochSecOfTs e.ts) ∧
      (timeRowOf wEv2).day = (civilFromDays (epochDayOfSec (epochSecOfTs e.ts))).day ∧
      (timeRowOf wEv2).week = weekOfYear (epochDayOfSec (epochSecOfTs e.ts)) ∧
      (timeRowOf wEv2).month = (civilFromDays (epochDayOfSec (epochSecOfTs e.ts))).month ∧
      (timeRowOf wEv2).year = (civilFromDays (epochDayOfSec (epochSecOfTs e.ts))).year ∧
      (timeRowOf wEv2).weekday = weekdayAbbrev (epochDayOfSec (epochSecOfTs e.ts)) :=
  time_fields_consistent [wEv2] (timeRowOf wEv2)
    (by simp [time_table, filterNextSong, wEv2])

/-- C5: if either persisted stage-1 dataset is missing, the songplays
derivation step of process_log_data fails with a surfaced read error
instead of producing any (empty) songplays table. -/
theorem songplays_read_failure_fatal (events : List ActivityEvent) (st : Store)
    (h : st.songs = none ∨ st.artists = none) :
    ∃ msg, process_log_data events st = Except.error msg := by
  rcases st with ⟨so, ar, us, ti, sp⟩
  cases so with
  | none => exact ⟨"Path does not exist: songs", rfl⟩
  | some t =>
    cases ar with
    | none => exact ⟨"Path does not exist: artists", rfl⟩
    | some t2 =>
      rcases h with h | h
      · exact Option.noConfusion h
      · exact Option.noConfusion h

/-- Witness for C5: stage 2 against an empty output directory errors. -/
theorem songplays_read_failure_fatal_witness :
    ∃ msg, process_log_data [wEv1] wEmptyStore = Except.error msg :=
  songplays_read_failure_fatal [wEv1] wEmptyStore (Or.inl rfl)

/-- C6: when the locator matches zero source objects for both datasets,
the whole pipeline still succeeds and every derived table is empty. -/
theorem zero_match_empty_tables (songKeys logKeys : List String)
    (songContent : String → List SongRecord)
    (logContent : String → List ActivityEvent) (st : Store)
    (hs : locateSongKeys songKeys = []) (hl : locateLogKeys logKeys = []) :
    runPipelineFromKeys songKeys songContent logKeys logContent st =
      Except.ok ⟨some [], some [], some [], some [], some []⟩ := by
  unfold runPipelineFromKeys loadSongs loadLogs
  rw [hs, hl]
  rfl

/-- Witness for C6: a listing with no song_data/log_data .json keys runs
the pipeline to an all-empty output. -/
theorem zero_match_empty_tables_witness :
    runPipelineFromKeys ["readme.txt"] (fun _ => [wSong1])
      ["song_data/x.json"] (fun _ => [wEv1]) wEmptyStore =
      Except.ok ⟨some [], some [], some [], some [], some []⟩ :=
  zero_match_empty_tables ["readme.txt"] ["song_data/x.json"]
    (fun _ => [wSong1]) (fun _ => [wEv1]) wEmptyStore (by decide) (by decide)

/-- C8: a full pipeline run only overwrites; its output is a function of
the input alone, so an immediate second run over the same input reproduces
the same five tables. -/
theorem pipeline_idempotent (catalog : List SongRecord)
    (events : List ActivityEvent) (st : Store) :
    ∃ st2, runPipeline catalog events st = Except.ok st2 ∧
      runPipeline catalog events st2 = Except.ok st2 :=
  ⟨_, rfl, rfl⟩

end Etl
